import Mathlib

/-!
Verification development for the Roomspot listing poller (src/RSS.py).

The program polls a housing-listing API, normalizes raw JSON items into
listing records, diffs them against a persisted list of already-seen ids,
sends one Discord notification per new listing, and persists the updated
seen list.  Below, the relevant Python functions are shallowly embedded as
Lean functions:

  - dynamic JSON values that flow into the price / area fields are modelled
    by `PyVal` (a JSON number, a string, or null / absent), with Python
    truthiness as `pyTruthy` and the `float(...)` conversion as `pyFloat`
    (conversion failure, which raises `ValueError` in Python, is `none`);
  - the polymorphic `dwellingType` / `woningsoort` fields (dict with a
    localized-name key, bare string, or absent) are modelled by `PyShape`;
  - per-item normalization (`get_listings` lines 86-201) is `processItem`;
    a raised per-item exception is `Except.error` and the blank-title skip
    is `Except.ok none`; the surrounding loop that skips both is
    `processItems`;
  - the fetch-level guards (HTTP status, malformed JSON body, missing
    "data" key) are `get_listings` over an abstract `ApiResponse`;
  - the diff-and-mark-seen loop of `main` (lines 280-287) is `diffStep`;
  - the notification phase is `notifyLoop`, parameterized by an abstract
    webhook send that may raise (`Except.error`), which
    `send_discord_notification` catches (its body is wrapped in a blanket
    try / except that logs and returns normally);
  - one iteration of the main loop, given the fetch result, is `runCycle`;
    the `savedSeen` field records the argument of the
    `save_seen_listings` call when it happens, and `sleepSecs` the argument
    of the final `asyncio.sleep`.

The `observedAt` timestamp (`time.time()`) is runtime clock state and is
omitted from the listing record; no claim mentions it.  String values
standing for Python objects of other runtime types (for example an integer
house number) are outside the embedded input universe; the numeric fields
that the spec discusses are covered by `PyVal`.
-/

/-- Dynamic value of a JSON-derived field: a number, a string, or
null / absent (`item.get` returns `None` for a missing key). -/
inductive PyVal where
  | vnum (q : ℚ)
  | vstr (s : String)
  | vnull
  deriving DecidableEq, Repr

/-- Python truthiness of a `PyVal`: `0`, `""` and `None` are falsy. -/
def pyTruthy : PyVal → Bool
  | .vnum q => q ≠ 0
  | .vstr s => s ≠ ""
  | .vnull => false

/-- Models Python `str.strip()`: removes leading and trailing whitespace
characters, written on the character list so that the kernel can evaluate
it. -/
def pyStrip (s : String) : String :=
  String.mk
    (((s.toList.dropWhile Char.isWhitespace).reverse.dropWhile
        Char.isWhitespace).reverse)

/-- Models Python `str.lower()` character by character (the listings the
claims exercise are ASCII). -/
def pyLower (s : String) : String :=
  String.mk (s.toList.map Char.toLower)

/-- Models Python `str.replace(" ", "")`: removes every space. -/
def removeSpaces (s : String) : String :=
  String.mk (s.toList.filter (fun c => c ≠ ' '))

/-- Parses a nonempty all-digit character list as a natural number. -/
def parseDigits : List Char → Option ℕ
  | [] => none
  | cs =>
    if cs.all Char.isDigit then
      some (cs.foldl (fun n c => n * 10 + (c.toNat - 48)) 0)
    else none

/-- Parses a decimal literal (optional leading minus, digits, optional
fractional part), the shapes of numeric strings the upstream API emits.
Exotic accepted-by-Python forms such as exponents are not modelled; for
them the parse fails, which models `float(...)` raising. -/
def parseDecimal (s : String) : Option ℚ :=
  let cs := (pyStrip s).toList
  let negAndDigits : Bool × List Char :=
    match cs with
    | '-' :: rest => (true, rest)
    | _ => (false, cs)
  let mag : Option ℚ :=
    match negAndDigits.2.splitOn '.' with
    | [w] => (parseDigits w).map (fun n => (n : ℚ))
    | [w, f] =>
      match parseDigits w, parseDigits f with
      | some n, some m => some ((n : ℚ) + (m : ℚ) / ((10 : ℚ) ^ f.length))
      | _, _ => none
    | _ => none
  mag.map (fun q => if negAndDigits.1 then -q else q)

/-- Models `float(v)`: the identity on numbers, a decimal parse on strings,
and failure (`none`, a raised exception) otherwise. -/
def pyFloat : PyVal → Option ℚ
  | .vnum q => some q
  | .vstr s => parseDecimal s
  | .vnull => none

/-- Models `str(v)` for the values interpolated into the area string.  A
rational with denominator one renders as its integer part, mirroring
Python rendering of JSON integers; other rationals use the Lean rendering
(no claim evaluates this branch). -/
def pyStr : PyVal → String
  | .vnum q => if q.den = 1 then toString q.num else toString q
  | .vstr s => s
  | .vnull => "None"

/-- Models the Python format `f"€\x7bx:.2f\x7d"` on an exact rational:
the amount rounded to cents, rendered with two decimal digits.  The cent
count is the rounding of `q * 100 = (100 * q.num) / q.den`, computed as
`(2 * (100 * q.num) + q.den) / (2 * q.den)` on integers so that the
kernel can evaluate it (rounding halves up; every value the claims
exercise is an exact nonnegative number of cents, so neither the
tie-breaking of binary floats nor the negative branch comes into
play). -/
def fmtEuro (q : ℚ) : String :=
  let c : ℤ := (2 * (100 * q.num) + (q.den : ℤ)) / (2 * (q.den : ℤ))
  let cents := c % 100
  let centStr := if cents < 10 then "0" ++ toString cents else toString cents
  "€" ++ toString (c / 100) ++ "." ++ centStr

/-- Shape of a polymorphic field (`dwellingType`, `woningsoort`): a dict
whose localized-name key is optionally present, a bare string, or absent. -/
inductive PyShape where
  | asDict (localized : Option String)
  | asStr (s : String)
  | absent
  deriving DecidableEq, Repr

/-- One entry of the `pictures` list: a dict with optional `url` and `uri`
keys, or some other value. -/
inductive PictureVal where
  | pdict (url uri : Option String)
  | other
  deriving DecidableEq, Repr

/-- Raw JSON item of the API response `data` array, restricted to the keys
`get_listings` reads.  `Option` marks key presence where the code defaults
missing keys with `.get(key, default)`; `toewijzingModelCategorie` is
accessed with brackets, so `none` there models a `KeyError`, and `some c`
a dict whose `code` key holds `c` when present. -/
structure RawItem where
  id : Option String := none
  street : Option String := none
  houseNumber : Option String := none
  houseNumberAddition : Option String := none
  gemeenteGeoLocatieNaam : Option String := none
  postalcode : Option String := none
  totalRent : PyVal := .vnull
  netRent : PyVal := .vnull
  areaDwelling : PyVal := .vnull
  dwellingType : PyShape := .absent
  objectType : Option String := none
  woningsoort : PyShape := .absent
  toewijzingModelCategorie : Option (Option String) := none
  pictures : List PictureVal := []
  publicationDate : Option String := none
  deriving DecidableEq, Repr

/-- Normalized listing record built by `get_listings` (lines 184-195),
without the runtime timestamp field. -/
structure Listing where
  id : String := ""
  title : String := ""
  price : String := ""
  area : String := ""
  property_type : String := ""
  house_type : String := ""
  link : String := ""
  img_url : String := ""
  publication_date : String := ""
  deriving DecidableEq, Repr

/-- Price extraction (lines 107-114): a truthy `totalRent` is formatted,
else a truthy `netRent`, else the sentinel.  A failing `float(...)`
conversion is a raised exception (`Except.error`). -/
def extract_price (item : RawItem) : Except String String :=
  if pyTruthy item.totalRent then
    match pyFloat item.totalRent with
    | some q => .ok (fmtEuro q)
    | none => .error "ValueError: totalRent"
  else if pyTruthy item.netRent then
    match pyFloat item.netRent with
    | some q => .ok (fmtEuro q)
    | none => .error "ValueError: netRent"
  else .ok "No price info"

/-- Area extraction (lines 117-121). -/
def extract_area (item : RawItem) : String :=
  if pyTruthy item.areaDwelling then pyStr item.areaDwelling ++ " m²"
  else "No area info"

/-- Property-type extraction (lines 124-128): a dict-shaped `dwellingType`
yields its localized name (empty default), anything else falls back to
`objectType` with empty default.  Total: neither shape raises. -/
def extract_property_type (item : RawItem) : String :=
  match item.dwellingType with
  | .asDict localized => localized.getD ""
  | _ => item.objectType.getD ""

/-- House-type extraction (lines 130-134): a dict-shaped `woningsoort`
yields its localized name; anything else falls back to
`item["toewijzingModelCategorie"].get("code", "")`, whose bracket access
raises `KeyError` (`Except.error`) when the key is absent. -/
def extract_house_type (item : RawItem) : Except String String :=
  match item.woningsoort with
  | .asDict localized => .ok (localized.getD "")
  | _ =>
    match item.toewijzingModelCategorie with
    | none => .error "KeyError: toewijzingModelCategorie"
    | some code => .ok (code.getD "")

/-- Image extraction and absolute-URL rewriting (lines 137-146). -/
def extract_img_url (item : RawItem) : String :=
  let img : String :=
    match item.pictures with
    | [] => ""
    | p :: _ =>
      match p with
      | .pdict (some u) _ => u
      | .pdict none (some u) => u
      | _ => ""
  if img ≠ "" ∧ ¬ ("http://".isPrefixOf img) ∧ ¬ ("https://".isPrefixOf img)
  then "https://www.roomspot.nl" ++ img
  else img

/-- URL path components (lines 152-174): the id, then cleaned street,
house number, cleaned nonempty addition, cleaned city, kept when the raw
component is nonempty. -/
def urlComponents (listing_id street house_number house_number_addition
    city_name : String) : List String :=
  [listing_id]
    ++ (if street ≠ "" then [removeSpaces (pyStrip (pyLower street))] else [])
    ++ (if house_number ≠ "" then [house_number] else [])
    ++ (if house_number_addition ≠ "" then
          (let addition := removeSpaces (pyStrip house_number_addition)
           if addition ≠ "" then [addition] else [])
        else [])
    ++ (if city_name ≠ "" then [removeSpaces (pyStrip (pyLower city_name))] else [])

/-- Per-item normalization, the body of the inner `for` loop of
`get_listings` (lines 86-197), in source order so that the first raised
exception wins.  `Except.error` models an exception caught by the
per-item handler (lines 199-201); `Except.ok none` models the blank-title
skip (lines 180-182); `Except.ok (some l)` models an appended listing. -/
def processItem (item : RawItem) : Except String (Option Listing) :=
  let listing_id := item.id.getD ""
  let street := item.street.getD ""
  let house_number := item.houseNumber.getD ""
  let house_number_addition := item.houseNumberAddition.getD ""
  let city_name := item.gemeenteGeoLocatieNaam.getD ""
  let postal_code := item.postalcode.getD ""
  let title_parts := [street, house_number, house_number_addition].filter (· ≠ "")
  let joined := " ".intercalate title_parts
  let title :=
    if postal_code ≠ "" ∨ city_name ≠ "" then
      joined ++ pyStrip (", " ++ postal_code ++ " " ++ city_name)
    else joined
  match extract_price item with
  | .error e => .error e
  | .ok price =>
    let area := extract_area item
    let property_type := extract_property_type item
    match extract_house_type item with
    | .error e => .error e
    | .ok house_type =>
      let img_url := extract_img_url item
      let publication_date := item.publicationDate.getD ""
      let link := "https://www.roomspot.nl/en/housing-offer/to-rent/translate-to-engels-details/"
        ++ "-".intercalate (urlComponents listing_id street house_number
            house_number_addition city_name)
      if title = "" ∨ title.toList.all Char.isWhitespace then
        .ok none
      else
        .ok (some
          { id := listing_id, title := title, price := price, area := area,
            property_type := property_type, house_type := house_type,
            link := link, img_url := img_url,
            publication_date := publication_date })

/-- The item loop of `get_listings`: items whose normalization raises or
whose title is blank are skipped, the rest are collected in order. -/
def processItems (items : List RawItem) : List Listing :=
  items.filterMap (fun i =>
    match processItem i with
    | .ok (some l) => some l
    | _ => none)

/-- Abstract response of the single POST request in `get_listings`:
the HTTP status, and the body outcome — `Except.error` when
`response.json()` raises on a malformed body, otherwise the parsed value,
with `none` when the falsy-or-missing `data` key check fails and
`some items` when `data` is a list of raw items. -/
structure ApiResponse where
  status : ℕ
  body : Except String (Option (List RawItem))
  deriving Repr

/-- Fetch (lines 59-210): a non-200 status, a body whose JSON parse
raises (caught by the outer handler, lines 207-208), or a missing `data`
key all yield the empty listing list; otherwise the items are
normalized. -/
def get_listings (resp : ApiResponse) : List Listing :=
  if resp.status ≠ 200 then []
  else
    match resp.body with
    | .error _ => []
    | .ok none => []
    | .ok (some items) => processItems items

/-- Steady poll interval in seconds (line 19). -/
def CHECK_INTERVAL : ℕ := 300

/-- Backoff in seconds after an empty fetch (line 276). -/
def EMPTY_FETCH_BACKOFF : ℕ := 60

/-- The new-listing detection loop of `main` (lines 280-287): iterate over
the snapshot in order; a listing whose id is not in the seen list is
collected as new and its id is appended to the seen list at once, so a
later occurrence of the same id within the same snapshot is already seen.
Returns the new listings and the updated seen list. -/
def diffStep : List Listing → List String → List Listing × List String
  | [], seen => ([], seen)
  | l :: rest, seen =>
    if l.id ∈ seen then diffStep rest seen
    else
      let tail := diffStep rest (seen ++ [l.id])
      (l :: tail.1, tail.2)

/-- Modelled from the spec: the Diff Engine contract of section 4.3 —
a pure function returning, in the order of `current`, every listing whose
id is not a member of `seen`, with no update of `seen`.  Used to compare
the contract with the fused loop `diffStep` that the code implements. -/
def diffSpec (current : List Listing) (seen : List String) : List Listing :=
  current.filter (fun l => l.id ∉ seen)

/-- Notification send (lines 212-245): the whole body, abstracted as the
`webhookSend` action which may raise (`Except.error`), runs inside a
blanket try / except that logs a failure and returns normally, so the
function is total and reports only success or failure. -/
def send_discord_notification (webhookSend : Listing → Except String Unit)
    (l : Listing) : Bool :=
  match webhookSend l with
  | .ok _ => true
  | .error _ => false

/-- The notification loop of `main` (lines 292-294): sequential sends in
order, each paired with its outcome. -/
def notifyLoop (webhookSend : Listing → Except String Unit) :
    List Listing → List (Listing × Bool)
  | [] => []
  | l :: rest =>
    (l, send_discord_notification webhookSend l) :: notifyLoop webhookSend rest

/-- Observable outcome of one iteration of the `while True` loop of
`main`: the notification attempts in order with their outcomes, the
in-memory seen list at the end, the argument of the
`save_seen_listings` call when one happens, and the sleep length. -/
structure CycleOutcome where
  sent : List (Listing × Bool)
  seen : List String
  savedSeen : Option (List String)
  sleepSecs : ℕ
  deriving DecidableEq, Repr

/-- One iteration of the main loop (lines 268-300), given the fetch
result `current` and the in-memory seen list: an empty fetch result skips
the cycle and backs off sixty seconds without touching the seen list;
otherwise the diff-and-mark loop runs, every new listing is sent, the
updated seen list is persisted, and the loop sleeps the steady
interval. -/
def runCycle (webhookSend : Listing → Except String Unit)
    (current : List Listing) (seen : List String) : CycleOutcome :=
  if current.isEmpty then
    { sent := [], seen := seen, savedSeen := none,
      sleepSecs := EMPTY_FETCH_BACKOFF }
  else
    let stepped := diffStep current seen
    { sent := notifyLoop webhookSend stepped.1, seen := stepped.2,
      savedSeen := some stepped.2, sleepSecs := CHECK_INTERVAL }

/-- Seen list after a run of successive cycles with the given fetch
results. -/
def runCycles (webhookSend : Listing → Except String Unit)
    (snapshots : List (List Listing)) (seen : List String) : List String :=
  snapshots.foldl (fun s current => (runCycle webhookSend current s).seen) seen

/-- Sample listing with a given id and default display fields, used to
build concrete scenarios. -/
def sampleL (i : String) : Listing := { id := i }

theorem diffStep_seen_eq (c : List Listing) (s : List String) :
    (diffStep c s).2 = s ++ ((diffStep c s).1).map Listing.id := by
  induction c generalizing s with
  | nil => simp [diffStep]
  | cons a rest ih =>
    by_cases h : a.id ∈ s
    · simp [diffStep, h, ih]
    · simp [diffStep, h, ih (s ++ [a.id])]

theorem mem_diffStep_seen (c : List Listing) (s : List String) :
    ∀ l ∈ c, l.id ∈ (diffStep c s).2 := by
  induction c generalizing s with
  | nil => simp
  | cons a rest ih =>
    intro l hl
    by_cases h : a.id ∈ s
    · rcases List.mem_cons.mp hl with rfl | hl
      · simp [diffStep, h, diffStep_seen_eq]
      · simpa [diffStep, h] using ih s l hl
    · rcases List.mem_cons.mp hl with rfl | hl
      · simp [diffStep, h, diffStep_seen_eq]
      · simpa [diffStep, h] using ih (s ++ [a.id]) l hl

theorem diffStep_eq_nil (c : List Listing) (s : List String)
    (h : ∀ l ∈ c, l.id ∈ s) : (diffStep c s).1 = [] := by
  induction c generalizing s with
  | nil => simp [diffStep]
  | cons a rest ih =>
    have ha : a.id ∈ s := h a (by simp)
    have := ih s (fun l hl => h l (by simp [hl]))
    simp [diffStep, ha, this]

theorem diffStep_nodup (c : List Listing) (s : List String)
    (h : s.Nodup) : (diffStep c s).2.Nodup := by
  induction c generalizing s with
  | nil => simpa [diffStep]
  | cons a rest ih =>
    by_cases ha : a.id ∈ s
    · simpa [diffStep, ha] using ih s h
    · have : (s ++ [a.id]).Nodup := by simp [List.nodup_append, h, ha]
      simpa [diffStep, ha] using ih (s ++ [a.id]) this

theorem notifyLoop_map_fst (ws : Listing → Except String Unit)
    (ls : List Listing) : (notifyLoop ws ls).map Prod.fst = ls := by
  induction ls with
  | nil => rfl
  | cons a rest ih => simp [notifyLoop, ih]

theorem diffStep_eq_diffSpec (c : List Listing) (s : List String)
    (h : (c.map Listing.id).Nodup) : (diffStep c s).1 = diffSpec c s := by
  induction c generalizing s with
  | nil => simp [diffStep, diffSpec]
  | cons a rest ih =>
    have hna : a.id ∉ rest.map Listing.id := (List.nodup_cons.mp h).1
    have hrest : (rest.map Listing.id).Nodup := (List.nodup_cons.mp h).2
    by_cases ha : a.id ∈ s
    · simp [diffStep, ha, diffSpec, List.filter_cons, ih s hrest]
    · have := ih (s ++ [a.id]) hrest
      simp only [diffSpec] at this ⊢
      simp [diffStep, ha, List.filter_cons, this]
      apply List.filter_congr
      intro l hl
      have hne : l.id ≠ a.id := by
        intro heq
        exact hna (heq ▸ List.mem_map_of_mem Listing.id hl)
      simp [hne]

/-- Claim C1, counterexample: on a snapshot holding two distinct listings
with the same id `"7"` and an empty seen list, the diff step of the code
returns only the first of them, not both as the pure-filter contract
demands, and it extends the seen list rather than leaving it untouched. -/
theorem C1_diff_cex :
    (diffStep [{ id := "7", title := "A" }, { id := "7", title := "B" }] []).1
      ≠ diffSpec [{ id := "7", title := "A" }, { id := "7", title := "B" }] []
    ∧ (diffStep [{ id := "7", title := "A" }, { id := "7", title := "B" }] []).2
      ≠ [] := by
  decide

/-- Claim C1, amended: when the snapshot carries no duplicate ids, the
diff step returns, in the order of `current`, exactly the listings whose
id is not a member of `seen` (the pure Diff Engine contract `diffSpec`);
the step is not pure, however — it also appends the returned ids to the
seen list, and on a snapshot with duplicate ids it keeps only the first
occurrence. -/
theorem C1_diff_matches_contract (c : List Listing) (s : List String)
    (h : (c.map Listing.id).Nodup) :
    (diffStep c s).1 = diffSpec c s
    ∧ (diffStep c s).2 = s ++ (diffSpec c s).map Listing.id := by
  refine ⟨diffStep_eq_diffSpec c s h, ?_⟩
  rw [diffStep_seen_eq, diffStep_eq_diffSpec c s h]

/-- Witness for C1 at a concrete duplicate-free snapshot. -/
theorem C1_diff_matches_contract_witness :
    (([{ id := "1" }, { id := "3" }] : List Listing).map Listing.id).Nodup
    ∧ (diffStep [{ id := "1" }, { id := "3" }] ["1"]).1
        = diffSpec [{ id := "1" }, { id := "3" }] ["1"] :=
  ⟨by decide, (C1_diff_matches_contract _ _ (by decide)).1⟩

/-- Claim C2: starting with seen list `["1", "2"]` and a fetch returning
listings with ids `["2", "3"]`, the cycle sends exactly one notification,
for the listing with id `"3"`, and persists the seen list
`["1", "2", "3"]`, whatever the webhook send does. -/
theorem C2_end_to_end (ws : Listing → Except String Unit) :
    ((runCycle ws [sampleL "2", sampleL "3"] ["1", "2"]).sent).map Prod.fst
        = [sampleL "3"]
    ∧ (runCycle ws [sampleL "2", sampleL "3"] ["1", "2"]).seen = ["1", "2", "3"]
    ∧ (runCycle ws [sampleL "2", sampleL "3"] ["1", "2"]).savedSeen
        = some ["1", "2", "3"] := by
  refine ⟨rfl, rfl, rfl⟩

/-- Claim C3: in one cycle every new listing is sent exactly once,
sequentially, in the order the diff loop returned them, whatever the
webhook send does (so a failure neither propagates nor blocks the
remaining sends); the ids of all new listings are appended to the seen
list, and the resulting seen list does not depend on the notification
outcomes. -/
theorem C3_notify_all_and_mark (ws wsOther : Listing → Except String Unit)
    (c : List Listing) (s : List String) :
    ((runCycle ws c s).sent).map Prod.fst = (diffStep c s).1
    ∧ (runCycle ws c s).seen = s ++ ((diffStep c s).1).map Listing.id
    ∧ (runCycle ws c s).seen = (runCycle wsOther c s).seen := by
  cases c with
  | nil => simp [runCycle, diffStep, notifyLoop]
  | cons a rest => simp [runCycle, notifyLoop_map_fst, ← diffStep_seen_eq]

/-- Claim C6: a run of cycles started on a duplicate-free seen list keeps
the seen list duplicate-free, even when a fetched snapshot contains two
listings with the same id. -/
theorem C6_seen_nodup (ws : Listing → Except String Unit)
    (snapshots : List (List Listing)) (s : List String) (h : s.Nodup) :
    (runCycles ws snapshots s).Nodup := by
  induction snapshots generalizing s with
  | nil => simpa [runCycles]
  | cons c rest ih =>
    have hstep : (runCycle ws c s).seen.Nodup := by
      cases c with
      | nil => simpa [runCycle]
      | cons a t => simpa [runCycle] using diffStep_nodup (a :: t) s h
    simpa [runCycles] using ih _ hstep

/-- Witness for C6 on a snapshot that repeats one id. -/
theorem C6_seen_nodup_witness :
    ([] : List String).Nodup
    ∧ (runCycles (fun _ => Except.ok ()) [[sampleL "1", sampleL "1"]] []).Nodup :=
  ⟨by decide, C6_seen_nodup _ _ _ (by decide)⟩

/-- Claim C7: re-diffing the same snapshot against the seen list extended
with the ids returned by the previous diff yields the empty sequence (the
first half of the claim, determinism on equal inputs, holds definitionally
because the diff loop is embedded as a function of its two inputs). -/
theorem C7_rediff_empty (c : List Listing) (s : List String) :
    (diffStep c (s ++ ((diffStep c s).1).map Listing.id)).1 = [] := by
  rw [← diffStep_seen_eq c s]
  exact diffStep_eq_nil c _ (mem_diffStep_seen c s)

/-- Claim C8: on an empty fetch result the cycle sends nothing, leaves the
seen list untouched, does not call the persist step, and waits the
sixty-second backoff, which is strictly shorter than the steady
five-minute poll interval; the loop body is a total function, so the loop
proceeds to the next cycle. -/
theorem C8_empty_fetch_frame (ws : Listing → Except String Unit)
    (s : List String) :
    runCycle ws [] s
      = { sent := [], seen := s, savedSeen := none,
          sleepSecs := EMPTY_FETCH_BACKOFF }
    ∧ EMPTY_FETCH_BACKOFF < CHECK_INTERVAL :=
  ⟨rfl, by decide⟩

/-- Claim C4: the fetch returns the empty listing list, instead of
propagating an error, whenever the HTTP status is not 200, the body fails
to parse as JSON, or the parsed body lacks the `data` key. -/
theorem C4_fetch_never_raises (resp : ApiResponse)
    (h : resp.status ≠ 200 ∨ (∃ e, resp.body = Except.error e)
        ∨ resp.body = Except.ok none) :
    get_listings resp = [] := by
  rcases h with h | ⟨e, he⟩ | h
  · simp [get_listings, h]
  · unfold get_listings
    rw [he]
    split <;> rfl
  · unfold get_listings
    rw [h]
    split <;> rfl

/-- Witness for C4 at a concrete non-success status. -/
theorem C4_fetch_never_raises_witness :
    ({ status := 500, body := Except.ok none : ApiResponse }).status ≠ 200
    ∧ get_listings { status := 500, body := Except.ok none } = [] :=
  ⟨by decide, C4_fetch_never_raises _ (Or.inl (by decide))⟩

/-- Raw item whose `woningsoort` arrives as a bare string and whose
`toewijzingModelCategorie` key is absent; every other field is benign and
its title is the nonempty `"Main"`. -/
def bareStringItem : RawItem :=
  { id := some "9", street := some "Main",
    woningsoort := .asStr "eengezinswoning" }

/-- Claim C5, counterexample: an item whose `woningsoort` arrives as a
bare string and whose `toewijzingModelCategorie` key is absent raises a
`KeyError` in the house-type fallback and is dropped from the batch — it
is not normalized into a Listing, refuting the claim for the bare-string
shape. -/
theorem C5_house_type_cex :
    processItem bareStringItem
      = Except.error "KeyError: toewijzingModelCategorie"
    ∧ processItems [bareStringItem] = [] :=
  ⟨rfl, rfl⟩

/-- Claim C5, amended: `propertyType` is derived without raising in both
shapes; `houseType` is derived without raising when `woningsoort` is a
structured object, or when it is a bare string and the
`toewijzingModelCategorie` key is present — but when `woningsoort` is a
bare string and that key is absent, the fallback raises `KeyError`, the
item fails normalization, and it is skipped while the rest of the batch
is processed. -/
theorem C5_shape_handling (item : RawItem) :
    (∀ loc, item.dwellingType = PyShape.asDict loc →
        extract_property_type item = loc.getD "")
    ∧ (∀ str, item.dwellingType = PyShape.asStr str →
        extract_property_type item = item.objectType.getD "")
    ∧ (∀ loc, item.woningsoort = PyShape.asDict loc →
        extract_house_type item = Except.ok (loc.getD ""))
    ∧ (∀ str, item.woningsoort = PyShape.asStr str →
        item.toewijzingModelCategorie = none →
          extract_house_type item
              = Except.error "KeyError: toewijzingModelCategorie"
          ∧ ∃ e, processItem item = Except.error e)
    ∧ (∀ str code, item.woningsoort = PyShape.asStr str →
        item.toewijzingModelCategorie = some code →
          extract_house_type item = Except.ok (code.getD ""))
    ∧ (∀ e, processItem item = Except.error e →
        ∀ pre post,
          processItems (pre ++ item :: post) = processItems (pre ++ post)) := by
  refine ⟨?_, ?_, ?_, ?_, ?_, ?_⟩
  · intro loc hd
    simp [extract_property_type, hd]
  · intro str hd
    simp [extract_property_type, hd]
  · intro loc hw
    simp [extract_house_type, hw]
  · intro str hw ht
    have hht : extract_house_type item
        = Except.error "KeyError: toewijzingModelCategorie" := by
      simp [extract_house_type, hw, ht]
    refine ⟨hht, ?_⟩
    cases hp : extract_price item with
    | error e => exact ⟨e, by simp [processItem, hp]⟩
    | ok p =>
      exact ⟨"KeyError: toewijzingModelCategorie", by simp [processItem, hp, hht]⟩
  · intro str code hw ht
    simp [extract_house_type, hw, ht]
  · intro e he pre post
    simp [processItems, List.filterMap_append, List.filterMap_cons, he]

/-- Witness for C5 at the concrete bare-string item. -/
theorem C5_shape_handling_witness :
    extract_house_type bareStringItem
        = Except.error "KeyError: toewijzingModelCategorie"
    ∧ ∃ e, processItem bareStringItem = Except.error e :=
  (C5_shape_handling bareStringItem).2.2.2.1 "eengezinswoning" rfl rfl

/-- Claim C9: a raw item with `totalRent = 950.5` yields the price
`"€950.50"`; one with `totalRent` absent and `netRent = 800` yields
`"€800.00"`; one with both absent yields the no-price sentinel, spelled
`"No price info"` in the code. -/
theorem C9_price_normalization :
    extract_price { totalRent := PyVal.vnum (mkRat 1901 2) }
        = Except.ok "€950.50"
    ∧ extract_price { netRent := PyVal.vnum 800 } = Except.ok "€800.00"
    ∧ extract_price {} = Except.ok "No price info"
    ∧ mkRat 1901 2 = 950.5 := by
  refine ⟨rfl, rfl, rfl, ?_⟩
  rw [Rat.mkRat_eq_divInt, Rat.divInt_eq_div]
  norm_num

/-- Claim C10: presence of the price fields is decided by truthiness, not
key membership — when `totalRent` is falsy the price is computed exactly
as if `totalRent` were absent: from `netRent` when that is truthy, and
the `"No price info"` sentinel when it is falsy too; a falsy `totalRent`
is never itself formatted. -/
theorem C10_price_truthiness (item : RawItem)
    (h : pyTruthy item.totalRent = false) :
    extract_price item = extract_price { item with totalRent := PyVal.vnull }
    ∧ (pyTruthy item.netRent = false →
        extract_price item = Except.ok "No price info")
    ∧ (∀ q, item.netRent = PyVal.vnum q → q ≠ 0 →
        extract_price item = Except.ok (fmtEuro q)) := by
  have hnull : pyTruthy PyVal.vnull = false := rfl
  refine ⟨?_, ?_, ?_⟩
  · simp [extract_price, h, hnull]
  · intro hn
    simp [extract_price, h, hn]
  · intro q hq hq0
    have htr : pyTruthy (PyVal.vnum q) = true := by simp [pyTruthy, hq0]
    simp [extract_price, h, hq, htr, pyFloat]

/-- Witness for C10: `totalRent` present but zero, `netRent = 800`. -/
theorem C10_price_truthiness_witness :
    pyTruthy (PyVal.vnum 0) = false
    ∧ extract_price { totalRent := PyVal.vnum 0, netRent := PyVal.vnum 800 }
        = Except.ok (fmtEuro 800) :=
  ⟨by decide,
    (C10_price_truthiness { totalRent := PyVal.vnum 0, netRent := PyVal.vnum 800 }
        (by decide)).2.2 800 rfl (by decide)⟩
